import Mathlib

/-!
Verification of the BMI calculator in src/BMI.c.

The program reads two floats (weight, height), computes
BMI = weight / (height * height), prints the BMI value, then prints one
category label chosen by an if / else-if chain, and returns 0.

We embed the float arithmetic at the ideal-value level: finite values are
exact rationals, and the IEEE special values (positive infinity, negative
infinity, NaN) are explicit constructors.  IEEE comparison semantics are
modelled faithfully: every ordered comparison involving NaN is false,
positive infinity is greater than every finite bound, negative infinity
is less than every finite bound.  Division by zero follows IEEE: a
positive numerator gives positive infinity, a negative numerator gives
negative infinity, and 0/0 gives NaN.
-/

/-- An IEEE-like floating point value at the ideal level: an exact finite
rational, or one of the special values. -/
inductive FVal where
  | fin : ℚ → FVal
  | inf : FVal
  | ninf : FVal
  | nan : FVal
deriving DecidableEq

/-- IEEE semantics of `v > c` for a finite bound `c` (NaN compares false). -/
def fgt : FVal → ℚ → Bool
  | .fin q, c => decide (c < q)
  | .inf, _ => true
  | .ninf, _ => false
  | .nan, _ => false

/-- IEEE semantics of `v >= c` for a finite bound `c` (NaN compares false). -/
def fge : FVal → ℚ → Bool
  | .fin q, c => decide (c ≤ q)
  | .inf, _ => true
  | .ninf, _ => false
  | .nan, _ => false

/-- IEEE semantics of `v <= c` for a finite bound `c` (NaN compares false). -/
def fle : FVal → ℚ → Bool
  | .fin q, c => decide (q ≤ c)
  | .inf, _ => false
  | .ninf, _ => true
  | .nan, _ => false

/-- IEEE semantics of `v < c` for a finite bound `c` (NaN compares false). -/
def flt : FVal → ℚ → Bool
  | .fin q, c => decide (q < c)
  | .inf, _ => false
  | .ninf, _ => true
  | .nan, _ => false

/-- `BMI = weight/(height*height)` from src/BMI.c line 15, with IEEE
division-by-zero semantics: `height*height = 0` iff `height = 0`, and then
a positive weight gives positive infinity, a negative weight gives negative
infinity, and weight 0 gives NaN. -/
def bmiOf (weight height : ℚ) : FVal :=
  let d := height * height
  if d = 0 then
    if 0 < weight then .inf
    else if weight < 0 then .ninf
    else .nan
  else .fin (weight / d)

/-- The classification chain of src/BMI.c lines 18-30: the label printed by
the first matching branch of the if / else-if chain. -/
def classify (bmi : FVal) : String :=
  if fgt bmi (37/2) then "Underweight"
  else if fge bmi (37/2) && fle bmi (249/10) then "Normal weight"
  else if fge bmi 25 && fle bmi (299/10) then "Overweight"
  else "Obesity"

/-- The four category labels the program can print. -/
def fourLabels : List String :=
  ["Underweight", "Normal weight", "Overweight", "Obesity"]

/-- One element of the program's output stream; each `printf` in
src/BMI.c contributes one element. -/
inductive OutItem where
  | prompt : String → OutItem
  | bmiText : FVal → OutItem
  | label : String → OutItem
  | trailing : String → OutItem
deriving DecidableEq

/-- The label printf performed by the if / else-if chain of src/BMI.c
lines 18-30: exactly the branch whose guard matches first emits its
label. -/
def labelPrints (bmi : FVal) : List OutItem :=
  if fgt bmi (37/2) then [.label "Underweight"]
  else if fge bmi (37/2) && fle bmi (249/10) then [.label "Normal weight"]
  else if fge bmi 25 && fle bmi (299/10) then [.label "Overweight"]
  else [.label "Obesity"]

/-- The full ordered output stream of one run of main, given the two
values read from standard input: the two prompts, the BMI value text,
the label printf of the matched branch, and the final literal
`printf("/n")`. -/
def progOutput (weight height : ℚ) : List OutItem :=
  [OutItem.prompt "Enter Weight in KG:", OutItem.prompt "Enter Height in m:",
   OutItem.bmiText (bmiOf weight height)]
  ++ labelPrints (bmiOf weight height)
  ++ [OutItem.trailing "/n"]

/-- One run of main: its output stream together with its exit code, the
single `return 0` at src/BMI.c line 33. -/
def runProg (weight height : ℚ) : List OutItem × Int :=
  (progOutput weight height, 0)

/-- First-match evaluation of a guard table: the label of the first guard
that holds, or the default label when none does. -/
def firstMatch : List ((FVal → Bool) × String) → String → FVal → String
  | [], dflt, _ => dflt
  | (g, lbl) :: rest, dflt, v => if g v then lbl else firstMatch rest dflt v

/-- The guard table of the specification, read top-to-bottom; the final
else branch is the default label "Obesity". -/
def guardTable : List ((FVal → Bool) × String) :=
  [(fun v => fgt v (37/2), "Underweight"),
   (fun v => fge v (37/2) && fle v (249/10), "Normal weight"),
   (fun v => fge v 25 && fle v (299/10), "Overweight")]

/-- Modelled from the spec: the corrected classification semantics of
section 4.1, which the repository's code does not contain — the first
guard uses `<` instead of `>`: `bmi < 18.5` gives "Underweight",
18.5 to 24.9 gives "Normal weight", 25 to 29.9 gives "Overweight",
otherwise "Obesity". -/
def classifyCorrected (bmi : FVal) : String :=
  if flt bmi (37/2) then "Underweight"
  else if fge bmi (37/2) && fle bmi (249/10) then "Normal weight"
  else if fge bmi 25 && fle bmi (299/10) then "Overweight"
  else "Obesity"

/-! Helper lemmas shared by several claim theorems. -/

lemma labelPrints_eq (v : FVal) : labelPrints v = [OutItem.label (classify v)] := by
  unfold labelPrints classify
  split_ifs <;> rfl

lemma classify_mem_fourLabels (v : FVal) : classify v ∈ fourLabels := by
  unfold classify fourLabels
  split_ifs <;> simp

lemma classify_three_way (v : FVal) :
    classify v =
      if fgt v (37/2) then "Underweight"
      else if v = FVal.fin (37/2) then "Normal weight"
      else "Obesity" := by
  cases v with
  | fin q =>
      rcases lt_trichotomy q (37/2 : ℚ) with hlt | heq | hgt
      · have h1 : ¬ ((37:ℚ)/2 < q) := by linarith
        have h2 : ¬ ((37:ℚ)/2 ≤ q) := by linarith
        have h3 : ¬ ((25:ℚ) ≤ q) := by linarith
        have h4 : q ≠ (37:ℚ)/2 := ne_of_lt hlt
        simp [classify, fgt, fge, fle, h1, h2, h3, h4]
      · subst heq
        have h1 : ¬ ((37:ℚ)/2 < 37/2) := lt_irrefl _
        have h2 : (37:ℚ)/2 ≤ 37/2 := le_refl _
        have h3 : (37:ℚ)/2 ≤ 249/10 := by norm_num
        simp [classify, fgt, fge, fle, h1, h2, h3]
      · simp [classify, fgt, hgt]
  | inf => simp [classify, fgt]
  | ninf => simp [classify, fgt, fge, fle]
  | nan => simp [classify, fgt, fge, fle]

lemma bmiOf_ne_zero (w h : ℚ) (hh : h ≠ 0) : bmiOf w h = FVal.fin (w / (h * h)) := by
  have hd : h * h ≠ 0 := mul_ne_zero hh hh
  simp [bmiOf, hd]

lemma bmiOf_zero_height (w : ℚ) :
    bmiOf w 0 = if 0 < w then FVal.inf else if w < 0 then FVal.ninf else FVal.nan := by
  simp [bmiOf]

lemma classify_fin_low (q : ℚ) (h : q < 37/2) : classify (FVal.fin q) = "Obesity" := by
  rw [classify_three_way]
  have h1 : fgt (FVal.fin q) (37/2) = false := by
    simp [fgt]
    linarith
  have h2 : FVal.fin q ≠ FVal.fin (37/2) := by
    simp [FVal.fin.injEq]
    exact ne_of_lt h
  simp [h1, h2]

lemma classify_fin_high (q : ℚ) (h : 37/2 < q) : classify (FVal.fin q) = "Underweight" := by
  rw [classify_three_way]
  have h1 : fgt (FVal.fin q) (37/2) = true := by
    simp [fgt]
    linarith
  simp [h1]

lemma classify_fin_mid : classify (FVal.fin (37/2)) = "Normal weight" := by
  rw [classify_three_way]
  have h1 : fgt (FVal.fin (37/2)) (37/2) = false := by
    simp [fgt]
  simp [h1]

lemma fle_fin (q c : ℚ) : fle (FVal.fin q) c = decide (q ≤ c) := rfl

lemma classify_inf : classify FVal.inf = "Underweight" := rfl

lemma classify_nan : classify FVal.nan = "Obesity" := rfl

/-! The claim theorems. -/

/-- C1 counterexample: at weight 18.5 and height 1 the computed BMI is
exactly 18.5, so it satisfies `bmi <= 18.5`, yet the program prints
"Normal weight" rather than "Obesity" — the claimed two-outcome collapse
fails at this input. -/
theorem C1_counterexample :
    fle (bmiOf (37/2) 1) (37/2) = true ∧
    classify (bmiOf (37/2) 1) = "Normal weight" := by
  have hb : bmiOf (37/2) 1 = FVal.fin (37/2) := by
    rw [bmiOf_ne_zero _ _ (by norm_num)]
    norm_num
  rw [hb]
  exact ⟨by simp [fle_fin], classify_fin_mid⟩

/-- C1 (amended): for every pair of inputs, the classification collapses
to three outcomes — BMI greater than 18.5 prints "Underweight", BMI
exactly 18.5 prints "Normal weight", and every other BMI (below 18.5,
negative infinity, or NaN) prints "Obesity"; the "Overweight" branch is
never taken. -/
theorem C1_amended_collapse (w h : ℚ) :
    classify (bmiOf w h) =
      if fgt (bmiOf w h) (37/2) then "Underweight"
      else if bmiOf w h = FVal.fin (37/2) then "Normal weight"
      else "Obesity" :=
  classify_three_way (bmiOf w h)

/-- C2: for every input, the printed label equals first-match evaluation,
top-to-bottom, of the guard table with guards `bmi > 18.5`
("Underweight"), `18.5 <= bmi <= 24.9` ("Normal weight"),
`25 <= bmi <= 29.9` ("Overweight"), and default label "Obesity". -/
theorem C2_first_match (w h : ℚ) :
    classify (bmiOf w h) = firstMatch guardTable "Obesity" (bmiOf w h) := by
  rfl

/-- C3: for every pair of inputs with positive height and positive
weight, the computed BMI is the exact finite value
weight / (height * height). -/
theorem C3_bmi_formula (w h : ℚ) (hh : 0 < h) (_hw : 0 < w) :
    bmiOf w h = FVal.fin (w / (h * h)) :=
  bmiOf_ne_zero w h (ne_of_gt hh)

/-- C3 witness: the formula theorem applied at weight 2, height 1. -/
theorem C3_bmi_formula_witness :
    (0:ℚ) < 1 ∧ (0:ℚ) < 2 ∧ bmiOf 2 1 = FVal.fin (2 / (1 * 1)) :=
  ⟨by norm_num, by norm_num, C3_bmi_formula 2 1 (by norm_num) (by norm_num)⟩

/-- C4: for every input, the output stream is exactly the two prompts,
then the BMI value text, then exactly one of the four category labels,
then the trailing literal — so the BMI value is printed first and exactly
one label follows it. -/
theorem C4_output_shape (w h : ℚ) :
    ∃ s, s ∈ fourLabels ∧
      progOutput w h =
        [OutItem.prompt "Enter Weight in KG:", OutItem.prompt "Enter Height in m:",
         OutItem.bmiText (bmiOf w h), OutItem.label s, OutItem.trailing "/n"] := by
  refine ⟨classify (bmiOf w h), classify_mem_fourLabels _, ?_⟩
  simp [progOutput, labelPrints_eq]

/-- C5 counterexample: at weight 50 and height 1.80 the original code
prints "Obesity", not "Underweight", because the computed BMI 1250/81 is
below 18.5 and so falls through every guard to the else branch. -/
theorem C5_counterexample :
    classify (bmiOf 50 (9/5)) ≠ "Underweight" ∧
    classify (bmiOf 50 (9/5)) = "Obesity" := by
  have hb : bmiOf 50 (9/5) = FVal.fin (1250/81) := by
    rw [bmiOf_ne_zero _ _ (by norm_num)]
    norm_num
  have hc : classify (bmiOf 50 (9/5)) = "Obesity" := by
    rw [hb]
    exact classify_fin_low _ (by norm_num)
  refine ⟨by rw [hc]; decide, hc⟩

/-- C5 (amended): at weight 50 and height 1.80 the computed BMI is the
finite value 1250/81, which is approximately 15.43 (strictly between
15.43 and 15.44); the corrected semantics prints "Underweight" for this
input, while the original (buggy) semantics prints "Obesity". -/
theorem C5_amended_example :
    bmiOf 50 (9/5) = FVal.fin (1250/81) ∧
    (1543/100 : ℚ) < 1250/81 ∧ (1250/81 : ℚ) < 1544/100 ∧
    classifyCorrected (bmiOf 50 (9/5)) = "Underweight" ∧
    classify (bmiOf 50 (9/5)) = "Obesity" := by
  have hb : bmiOf 50 (9/5) = FVal.fin (1250/81) := by
    rw [bmiOf_ne_zero _ _ (by norm_num)]
    norm_num
  refine ⟨hb, by norm_num, by norm_num, ?_, ?_⟩
  · rw [hb]
    have h : (1250/81 : ℚ) < 37/2 := by norm_num
    simp [classifyCorrected, flt, h]
  · rw [hb]
    exact classify_fin_low _ (by norm_num)

/-- C6: for every input, the program's exit code is 0; there is no other
return path. -/
theorem C6_exit_zero (w h : ℚ) : (runProg w h).2 = 0 := rfl

/-- C7: for height 0 the computation still yields one of the four labels
deterministically — and for positive weight the division yields positive
infinity, which satisfies `bmi > 18.5`, so the program prints
"Underweight". -/
theorem C7_zero_height (w : ℚ) :
    classify (bmiOf w 0) ∈ fourLabels ∧
    (0 < w → bmiOf w 0 = FVal.inf ∧ classify (bmiOf w 0) = "Underweight") := by
  refine ⟨classify_mem_fourLabels _, fun hw => ?_⟩
  have h := bmiOf_zero_height w
  rw [if_pos hw] at h
  exact ⟨h, by rw [h]; exact classify_inf⟩

/-- C7 witness: the zero-height theorem applied at weight 1. -/
theorem C7_zero_height_witness :
    (0:ℚ) < 1 ∧ bmiOf 1 0 = FVal.inf ∧ classify (bmiOf 1 0) = "Underweight" :=
  ⟨by norm_num, (C7_zero_height 1).2 (by norm_num)⟩

/-- C8: the program is deterministic — two runs on identical inputs
produce identical output streams and exit codes. -/
theorem C8_deterministic (w1 h1 w2 h2 : ℚ) (hw : w1 = w2) (hh : h1 = h2) :
    runProg w1 h1 = runProg w2 h2 := by
  rw [hw, hh]

/-- C8 witness: determinism applied at the concrete input pair (70, 7/4)
given twice. -/
theorem C8_deterministic_witness :
    (70:ℚ) = 70 ∧ (7/4:ℚ) = 7/4 ∧ runProg 70 (7/4) = runProg 70 (7/4) :=
  ⟨rfl, rfl, C8_deterministic 70 (7/4) 70 (7/4) rfl rfl⟩

/-- C9: whenever the computed BMI is exactly 18.5, the first guard
`bmi > 18.5` is false, the second guard `bmi >= 18.5 && bmi <= 24.9` is
true, and the program prints "Normal weight". -/
theorem C9_boundary (w h : ℚ) (hb : bmiOf w h = FVal.fin (37/2)) :
    fgt (bmiOf w h) (37/2) = false ∧
    (fge (bmiOf w h) (37/2) && fle (bmiOf w h) (249/10)) = true ∧
    classify (bmiOf w h) = "Normal weight" := by
  rw [hb]
  refine ⟨by simp [fgt], ?_, classify_fin_mid⟩
  have h1 : (37:ℚ)/2 ≤ 37/2 := le_refl _
  have h2 : (37:ℚ)/2 ≤ 249/10 := by norm_num
  simp [fge, fle, h1, h2]

/-- C9 witness: the boundary theorem applied at weight 18.5, height 1,
whose BMI is exactly 18.5. -/
theorem C9_boundary_witness :
    bmiOf (37/2) 1 = FVal.fin (37/2) ∧ classify (bmiOf (37/2) 1) = "Normal weight" := by
  have hb : bmiOf (37/2) 1 = FVal.fin (37/2) := by
    rw [bmiOf_ne_zero _ _ (by norm_num)]
    norm_num
  exact ⟨hb, (C9_boundary (37/2) 1 hb).2.2⟩

/-- C10: whenever the computed BMI is NaN — as at weight 0, height 0 —
every comparison guard of the chain is false and the program falls
through to the else branch, printing "Obesity". -/
theorem C10_nan (w h : ℚ) (hb : bmiOf w h = FVal.nan) :
    fgt (bmiOf w h) (37/2) = false ∧
    (fge (bmiOf w h) (37/2) && fle (bmiOf w h) (249/10)) = false ∧
    (fge (bmiOf w h) 25 && fle (bmiOf w h) (299/10)) = false ∧
    classify (bmiOf w h) = "Obesity" := by
  rw [hb]
  exact ⟨rfl, rfl, rfl, rfl⟩

/-- C10 witness: the NaN theorem applied at weight 0, height 0, where the
division is 0/0 and yields NaN. -/
theorem C10_nan_witness :
    bmiOf 0 0 = FVal.nan ∧ classify (bmiOf 0 0) = "Obesity" := by
  have hb : bmiOf 0 0 = FVal.nan := by
    rw [bmiOf_zero_height]
    norm_num
  exact ⟨hb, (C10_nan 0 0 hb).2.2.2⟩
